import Mathlib

/-!
Verification development for the AI 3D-model generation job pipeline of the
`menuz` server (`src/server.js`).

The JavaScript handlers are shallowly embedded as pure Lean functions.
External effects (the Meshy HTTP API, artifact downloads, `randomUUID`,
`Date.now`) are passed in explicitly as oracle records: each oracle field
records the outcome the corresponding awaited call would have produced, so
the handler logic itself is translated line by line from the source.
JavaScript strings become `String`, arrays become `List`, truthiness tests
on strings become `≠ ""`, `undefined`-vs-present distinctions become
`Option`, and timestamps become `Nat`.
-/

namespace Menuz

/-!
JavaScript's string primitives (`toUpperCase`, `toLowerCase`, `trim`,
`slice`, `startsWith`, `includes`) are modelled characterwise over
`String.data`.  For the ASCII vocabulary this code handles these agree with
`String.toUpper`/`toLower`/`trim`/`take`/`startsWith`, but unlike those they
reduce inside the kernel, so concrete witnesses can be checked by `decide`.
-/

/-- Characterwise `String.toUpper`: JavaScript `s.toUpperCase()`. -/
def strUpper (s : String) : String := ⟨s.data.map Char.toUpper⟩

/-- Characterwise `String.toLower`: JavaScript `s.toLowerCase()`. -/
def strLower (s : String) : String := ⟨s.data.map Char.toLower⟩

/-- Characterwise `String.trim`: JavaScript `s.trim()`. -/
def strTrim (s : String) : String :=
  ⟨((s.data.dropWhile Char.isWhitespace).reverse.dropWhile Char.isWhitespace).reverse⟩

/-- Characterwise `String.take`: JavaScript `s.slice(0, n)`. -/
def strTake (s : String) (n : Nat) : String := ⟨s.data.take n⟩

/-- Does `s` start with `pat`?  For JavaScript `startsWith` and the anchored
regex of `isRemoteHttpUrl`. -/
def charsStartWith : List Char → List Char → Bool
  | _, [] => true
  | [], _ :: _ => false
  | a :: s, b :: p => a = b && charsStartWith s p

/-- Characterwise `String.startsWith`. -/
def strStartsWith (s pat : String) : Bool := charsStartWith s.data pat.data

/-- `isRemoteHttpUrl` (server.js): `/^https?:\/\//i.test(value || "")`. -/
def isRemoteHttpUrl (value : String) : Bool :=
  strStartsWith (strLower value) "http://" || strStartsWith (strLower value) "https://"

/-- JavaScript `a || b` on strings: the left operand unless it is falsy (empty). -/
def orElseStr (a b : String) : String :=
  if a ≠ "" then a else b

/-- The `modelJobs` row shape created by `POST /api/restaurants/:id/model-jobs`
(server.js lines 1050-1069), restricted to the fields the pipeline reads or
writes.  `id`, `restaurantId`, `itemId`, `sourceType`, `createdAt`, `createdBy`
are opaque identity fields never consulted by the state machine and are
omitted. -/
structure Job where
  provider : String := "manual"
  aiModel : String := ""
  autoMode : Bool := false
  status : String := "enviado"
  notes : String := ""
  modelGlb : String := ""
  modelUsdz : String := ""
  referenceImages : List String := []
  providerTaskId : String := ""
  providerTaskEndpoint : String := ""
  providerStatus : String := ""
  updatedAt : Nat := 0
  deriving DecidableEq, Repr

/-- The menu-item fields the pipeline reads (`item.image`, `item.scans`) and
writes (`item.modelGlb`, `item.modelUsdz`). -/
structure Item where
  image : String := ""
  scans : List String := []
  modelGlb : String := ""
  modelUsdz : String := ""
  deriving DecidableEq, Repr

/-- `mapMeshyStatus` (server.js lines 399-404). -/
def mapMeshyStatus (meshyStatus : String) : String :=
  let status := strUpper meshyStatus
  if status = "SUCCEEDED" || status = "COMPLETED" then "revisao"
  else if ["FAILED", "ERROR", "CANCELED", "CANCELLED"].contains status then "erro"
  else "processando"

/-- The `allowedStatus` set of `PUT /api/model-jobs/:id` (server.js lines
1086-1093): the six-value domain status enum. -/
def allowedStatus : List String :=
  ["enviado", "triagem", "processando", "revisao", "publicado", "erro"]

/-- The job row built by the create handler (server.js lines 1050-1069) after
its input validation has passed: the status always starts at `"enviado"` and
all pipeline fields start empty. -/
def createModelJob (providerId aiModel : String) (autoMode : Bool)
    (notes : String) (now : Nat) : Job :=
  { provider := providerId
    aiModel := strTrim aiModel
    autoMode := autoMode
    status := "enviado"
    notes := strTake notes 500
    modelGlb := ""
    modelUsdz := ""
    referenceImages := []
    providerTaskId := ""
    providerTaskEndpoint := ""
    providerStatus := ""
    updatedAt := now }

/-- One of the two AI providers returned by `getAiProviders` (server.js lines
286-307), restricted to the fields the handlers read.  The Meshy provider is
enabled exactly when `MESHY_API_KEY` is present in the environment, which is
passed in as `hasMeshyKey`. -/
structure AiProvider where
  id : String
  enabled : Bool
  deriving DecidableEq, Repr

/-- `getAiProvider` (server.js lines 309-311): looks the id up in the fixed
two-provider table of `getAiProviders`. -/
def getAiProvider (providerId : String) (hasMeshyKey : Bool) : Option AiProvider :=
  if providerId = "meshy" then some ⟨"meshy", hasMeshyKey⟩
  else if providerId = "manual" then some ⟨"manual", true⟩
  else none

/-- Default of the `MESHY_AI_MODEL` environment variable (server.js line 44). -/
def MESHY_DEFAULT_MODEL : String := "meshy-6"

/-- Normalisation of the extension argument in `downloadModelToUploads`
(server.js line 555): prepend a dot unless one is already there. -/
def normalizeModelExt (extension : String) : String :=
  if strStartsWith extension "." then extension else "." ++ extension

/-- `downloadModelToUploads` (server.js lines 553-565).  The two effects are
passed in: `fetchOk` is whether the HTTP fetch of `urlValue` came back with
`res.ok`, and `freshId` is the `randomUUID()` used for the destination file
name.  A non-remote URL short-circuits to `""`; a failed fetch throws
(`.error`); otherwise the artifact is written and the stored path under
`/uploads/models/` is returned. -/
def downloadModelToUploads (urlValue extension : String) (fetchOk : Bool)
    (freshId : String) : Except String String :=
  if ¬ isRemoteHttpUrl urlValue then .ok ""
  else if ¬ fetchOk then .error "model_download_failed"
  else .ok ("/uploads/models/" ++ freshId ++ normalizeModelExt extension)

/-- Result of `extractMeshyModelUrls` (server.js lines 516-551): at most one
GLB and one USDZ URL, `""` when the probed payload paths held none.  The
extraction itself only ever stores values passing `isRemoteHttpUrl`. -/
structure MeshyModelUrls where
  glb : String := ""
  usdz : String := ""
  deriving DecidableEq, Repr

/-- Oracle for the external effects of one `POST /api/model-jobs/:id/ai/sync`
call: the outcome of `fetchMeshyTask` (`pollOk` false means it threw;
otherwise `pollEndpoint` is `providerSync.endpoint`, `taskStatus` is
`(taskData.status || "")` and `modelUrls` is `extractMeshyModelUrls(taskData)`),
the outcomes of the two artifact downloads, the request body's `autoPublish`
value (`some true` exactly when it is strictly boolean `true`) and the
`Date.now` timestamp. -/
structure SyncOracle where
  pollOk : Bool := true
  pollEndpoint : String := ""
  taskStatus : String := ""
  modelUrls : MeshyModelUrls := {}
  glbFetchOk : Bool := true
  glbFreshId : String := "glb-uuid"
  usdzFetchOk : Bool := true
  usdzFreshId : String := "usdz-uuid"
  autoPublish : Option Bool := none
  now : Nat := 0
  deriving DecidableEq, Repr

/-- The GLB materialization step of the sync handler (server.js lines
1251-1254): download only when the provider reported a GLB URL and the job's
`modelGlb` is still empty; a thrown download aborts the `try` block with the
job in its current in-memory state (`.error`). -/
def syncMaterializeGlb (j : Job) (o : SyncOracle) : Except Job Job :=
  if o.modelUrls.glb ≠ "" ∧ j.modelGlb = "" then
    match downloadModelToUploads o.modelUrls.glb ".glb" o.glbFetchOk o.glbFreshId with
    | .ok p => .ok { j with modelGlb := p }
    | .error _ => .error j
  else .ok j

/-- The USDZ materialization step of the sync handler (server.js lines
1255-1257), symmetric to `syncMaterializeGlb`. -/
def syncMaterializeUsdz (j : Job) (o : SyncOracle) : Except Job Job :=
  if o.modelUrls.usdz ≠ "" ∧ j.modelUsdz = "" then
    match downloadModelToUploads o.modelUrls.usdz ".usdz" o.usdzFetchOk o.usdzFreshId with
    | .ok p => .ok { j with modelUsdz := p }
    | .error _ => .error j
  else .ok j

/-- The job's in-memory state right after a successful poll (server.js lines
1246-1248): endpoint bias, raw provider status, and the mapped domain status. -/
def syncPolledJob (job : Job) (o : SyncOracle) : Job :=
  { job with
    providerTaskEndpoint := orElseStr o.pollEndpoint (orElseStr job.providerTaskEndpoint "")
    providerStatus := o.taskStatus
    status := mapMeshyStatus o.taskStatus }

/-- The body of the `if (job.status === "revisao")` block (server.js lines
1250-1261): both artifact materializations in order, then the conditional
auto-publish.  `.error` carries the job's in-memory state when a download
threw. -/
def syncRevisaoSteps (j : Job) (o : SyncOracle) : Except Job Job :=
  match syncMaterializeGlb j o with
  | .error j2 => .error j2
  | .ok j2 =>
    match syncMaterializeUsdz j2 o with
    | .error j3 => .error j3
    | .ok j3 =>
      if j3.autoMode ∧ o.autoPublish = some true then .ok { j3 with status := "publicado" }
      else .ok j3

/-- The `try` block of the sync handler (server.js lines 1239-1261) up to the
`updatedAt` stamp: poll, record endpoint and raw status, map the status, and
on `"revisao"` materialize both artifacts and optionally auto-publish.
`.error j` is the job's in-memory state at the point an awaited call threw;
the caller's catch block turns it into a persisted `"erro"` row. -/
def syncPipeline (job : Job) (o : SyncOracle) : Except Job Job :=
  if ¬ o.pollOk then .error job
  else
    let j : Job := syncPolledJob job o
    if j.status = "revisao" then syncRevisaoSteps j o
    else .ok j

/-- The publish cascade shared verbatim by the sync handler (server.js lines
1264-1270) and the direct-edit handler (lines 1123-1129): non-empty job model
fields overwrite the linked item's fields, empty ones leave them alone. -/
def applyPublishCascade (job : Job) (item : Item) : Item :=
  let item := if job.modelGlb ≠ "" then { item with modelGlb := job.modelGlb } else item
  if job.modelUsdz ≠ "" then { item with modelUsdz := job.modelUsdz } else item

/-- Outcome of `POST /api/model-jobs/:id/ai/sync`.  `badRequest` responds 400
without writing the DB; `synced` is the 200 response (persisted job, possibly
cascaded item, raw provider status echo); `syncFailed` is the catch block's
502 `ai_sync_failed` response after persisting the job with status `"erro"`. -/
inductive SyncOutcome where
  | badRequest (code : String)
  | synced (job : Job) (item : Option Item) (providerStatus : String)
  | syncFailed (job : Job) (item : Option Item)
  deriving DecidableEq, Repr

/-- `POST /api/model-jobs/:id/ai/sync` (server.js lines 1222-1280), after the
auth and job-lookup guards: provider and task-handle validation, the polling
pipeline, the `updatedAt` stamp, the publish cascade onto the looked-up item,
and the catch block that persists `status = "erro"`. -/
def syncHandler (job : Job) (item : Option Item) (o : SyncOracle) : SyncOutcome :=
  if job.provider ≠ "meshy" then .badRequest "provider_not_implemented"
  else if job.providerTaskId = "" then .badRequest "provider_task_missing"
  else
    match syncPipeline job o with
    | .ok j =>
      let j : Job := { j with updatedAt := o.now }
      let item := if j.status = "publicado" then item.map (applyPublishCascade j) else item
      .synced j item o.taskStatus
    | .error j => .syncFailed { j with status := "erro", updatedAt := o.now } item

/-- The persisted job row after a sync call: a 400 response writes nothing,
the other outcomes persist the job they carry. -/
def syncPersistedJob (job : Job) : SyncOutcome → Job
  | .badRequest _ => job
  | .synced j _ _ => j
  | .syncFailed j _ => j

/-- Oracle for the external effects of one `POST /api/model-jobs/:id/ai/start`
call.  `bodyProvider`/`bodyAiModel` are the request body overrides (empty
means absent or falsy, as in the `||` chains of the handler), `hasMeshyKey`
is the `MESHY_API_KEY` presence, `buildOk` is whether `buildJobImageInputs`
resolved without throwing and `imageInputs` its result, `submitOk` is whether
`startMeshyImageTo3D` resolved and `taskId`/`endpoint` its result, and `now`
is the `Date.now` timestamp. -/
structure StartOracle where
  bodyProvider : String := ""
  bodyAiModel : String := ""
  targetPolycount : Option Nat := none
  hasMeshyKey : Bool := true
  buildOk : Bool := true
  imageInputs : List String := []
  submitOk : Bool := true
  taskId : String := ""
  endpoint : String := ""
  now : Nat := 0

/-- The catch block of the start handler (server.js lines 1213-1217): persist
the diagnostic marker and the terminal error status. -/
def startCatch (job : Job) (now : Nat) : Job :=
  { job with providerStatus := "ERROR_ON_START", status := "erro", updatedAt := now }

/-- Outcome of `POST /api/model-jobs/:id/ai/start`.  `badRequest` responds 400
without writing the DB; `started` is the 200 response; `startFailed` is the
catch block's 502 `ai_start_failed` response after persisting the job. -/
inductive StartOutcome where
  | badRequest (code : String)
  | started (job : Job) (taskId : String) (endpoint : String) (imagesSent : Nat)
  | startFailed (job : Job)
  deriving DecidableEq, Repr

/-- `POST /api/model-jobs/:id/ai/start` (server.js lines 1152-1220), after the
auth and job-lookup guards: item lookup, provider resolution and validation,
the `try` block (image gathering, Meshy submission, success bookkeeping) and
the catch block. -/
def startHandler (job : Job) (item : Option Item) (o : StartOracle) : StartOutcome :=
  match item with
  | none => .badRequest "item_not_found"
  | some _ =>
    let providerId := strLower (strTrim (orElseStr o.bodyProvider (orElseStr job.provider "manual")))
    match getAiProvider providerId o.hasMeshyKey with
    | none => .badRequest "provider_invalid"
    | some provider =>
      if ¬ provider.enabled then .badRequest "provider_not_configured"
      else if provider.id ≠ "meshy" then .badRequest "provider_not_implemented"
      else if ¬ o.buildOk then .startFailed (startCatch job o.now)
      else if o.imageInputs.isEmpty then .badRequest "image_source_not_found"
      else
        let aiModel := strTrim (orElseStr o.bodyAiModel (orElseStr job.aiModel MESHY_DEFAULT_MODEL))
        if ¬ o.submitOk then .startFailed (startCatch job o.now)
        else
          .started
            { job with
              provider := provider.id
              aiModel := aiModel
              providerTaskId := o.taskId
              providerTaskEndpoint := orElseStr o.endpoint ""
              providerStatus := "SUBMITTED"
              status := "processando"
              updatedAt := o.now }
            o.taskId o.endpoint o.imageInputs.length

/-- The persisted job row after a start call: a 400 response writes nothing,
the other outcomes persist the job they carry. -/
def startPersistedJob (job : Job) : StartOutcome → Job
  | .badRequest _ => job
  | .started j _ _ _ => j
  | .startFailed j => j

/-- The `PUT /api/model-jobs/:id` request body (server.js lines 1094-1120):
`none` models a field left `undefined`, which skips that field's update. -/
structure EditBody where
  status : Option String := none
  notes : Option String := none
  modelGlb : Option String := none
  modelUsdz : Option String := none
  provider : Option String := none
  aiModel : Option String := none

/-- Outcome of `PUT /api/model-jobs/:id`.  A 400 response returns before
`writeDb`, so its in-memory mutations are discarded (each request re-reads the
DB); `saved` is the persisted job and (possibly cascaded) item. -/
inductive PutOutcome where
  | badRequest (code : String)
  | saved (job : Job) (item : Option Item)
  deriving DecidableEq, Repr

/-- The tail of the direct-edit handler after the provider check (server.js
lines 1118-1132): `aiModel` update, `updatedAt` stamp, publish cascade. -/
def putFinish (job : Job) (item : Option Item) (body : EditBody) (now : Nat) : PutOutcome :=
  let job := match body.aiModel with
    | some v => { job with aiModel := strTrim v }
    | none => job
  let job := { job with updatedAt := now }
  let item := if job.status = "publicado" then item.map (applyPublishCascade job) else item
  .saved job item

/-- The middle of the direct-edit handler (server.js lines 1101-1117): notes,
model paths, and the validated provider override. -/
def putAfterStatus (job : Job) (item : Option Item) (body : EditBody) (now : Nat)
    (hasMeshyKey : Bool) : PutOutcome :=
  let job := match body.notes with
    | some v => { job with notes := strTake v 500 }
    | none => job
  let job := match body.modelGlb with
    | some v => { job with modelGlb := strTrim v }
    | none => job
  let job := match body.modelUsdz with
    | some v => { job with modelUsdz := strTrim v }
    | none => job
  match body.provider with
  | some v =>
    let providerId := strLower (strTrim v)
    match getAiProvider providerId hasMeshyKey with
    | none => .badRequest "provider_invalid"
    | some _ => putFinish { job with provider := providerId } item body now
  | none => putFinish job item body now

/-- `PUT /api/model-jobs/:id` (server.js lines 1076-1133), after the auth and
job-lookup guards: a present `status` is lower-cased and validated against the
six-value enum before being stored. -/
def putModelJob (job : Job) (item : Option Item) (body : EditBody) (now : Nat)
    (hasMeshyKey : Bool) : PutOutcome :=
  match body.status with
  | some s =>
    let status := strLower s
    if status ∉ allowedStatus then .badRequest "status_invalid"
    else putAfterStatus { job with status := status } item body now hasMeshyKey
  | none => putAfterStatus job item body now hasMeshyKey

/-- The persisted job row after a direct edit: a 400 response writes nothing. -/
def putPersistedJob (job : Job) : PutOutcome → Job
  | .badRequest _ => job
  | .saved j _ => j

/-- The candidate list of `buildJobImageInputs` (server.js lines 376-384):
job reference images most-recent-first, then item scans most-recent-first,
then the item's primary image, with falsy (empty) entries filtered out. -/
def orderedCandidates (item : Item) (job : Job) : List String :=
  (job.referenceImages.reverse ++ item.scans.reverse
    ++ [orElseStr item.image ""]).filter (fun c => c ≠ "")

/-- The resolve-dedup-cap loop of `buildJobImageInputs` (server.js lines
385-394).  `resolve` is `resolveImageCandidate` abstracted over the
filesystem: it maps a candidate to the provider-consumable input, or `""`
when the candidate is skipped.  The JavaScript `seen` set always holds
exactly the elements of `unique`, so membership in the accumulator models it. -/
def buildJobImageInputsGo (resolve : String → String) (maxImages : Nat) :
    List String → List String → List String
  | [], unique => unique
  | c :: rest, unique =>
    let imageInput := resolve c
    if imageInput = "" ∨ imageInput ∈ unique then
      buildJobImageInputsGo resolve maxImages rest unique
    else
      let unique2 := unique ++ [imageInput]
      if maxImages ≤ unique2.length then unique2
      else buildJobImageInputsGo resolve maxImages rest unique2

/-- `buildJobImageInputs` (server.js lines 375-397).  `maxImages` is the
`MESHY_MAX_REFERENCE_IMAGES` configuration constant (env-overridable, default
4, server.js line 45). -/
def buildJobImageInputs (resolve : String → String) (maxImages : Nat)
    (item : Item) (job : Job) : List String :=
  buildJobImageInputsGo resolve maxImages (orderedCandidates item job) []

/-- Spec-side reference: the uncapped ordered value-based dedup of the resolved
candidates, stated from the spec's words "ordered, deduplicated" (spec §4.3);
`buildJobImageInputs` is compared against its `take maxImages`. -/
def dedupResolveSpec (resolve : String → String) (seen : List String) :
    List String → List String
  | [] => []
  | c :: rest =>
    let v := resolve c
    if v = "" ∨ v ∈ seen then dedupResolveSpec resolve seen rest
    else v :: dedupResolveSpec resolve (seen ++ [v]) rest

/-- A `fetch` response as the adapter sees it: the HTTP status and the text
body (for an error) or JSON payload (for a success), kept opaque. -/
structure HttpResponse where
  status : Nat := 200
  body : String := ""
  deriving DecidableEq, Repr

/-- `res.ok` of the WHATWG fetch API: status in the 200-299 range. -/
def respOk (r : HttpResponse) : Bool :=
  200 ≤ r.status && r.status < 300

/-- Insertion-ordered dedup, as `[...new Set(ordered)]` (server.js line 488). -/
def dedupKeepFirstAux (seen : List String) : List String → List String
  | [] => []
  | a :: rest =>
    if a ∈ seen then dedupKeepFirstAux seen rest
    else a :: dedupKeepFirstAux (seen ++ [a]) rest

/-- Substring test on character lists, for JavaScript `String.includes`. -/
def charsContain : List Char → List Char → Bool
  | [], pat => charsStartWith [] pat
  | a :: s, pat => charsStartWith (a :: s) pat || charsContain s pat

/-- JavaScript `s.includes(pat)`. -/
def strIncludes (s pat : String) : Bool :=
  charsContain s.data pat.data

/-- `getMeshyTaskEndpoints` (server.js lines 478-489): order the two known
polling endpoints by the hint, multi-image first when hinted so. -/
def getMeshyTaskEndpoints (endpointHint : String) : List String :=
  let hint := strTrim (strLower endpointHint)
  let ordered :=
    if strIncludes hint "multi-image-to-3d" then ["multi-image-to-3d", "image-to-3d"]
    else if strIncludes hint "image-to-3d" then ["image-to-3d", "multi-image-to-3d"]
    else ["image-to-3d", "multi-image-to-3d"]
  dedupKeepFirstAux [] ordered

/-- Result of `fetchMeshyTask`: the parsed task from the endpoint that
answered, a thrown `meshy_key_missing`, or a thrown `meshy_sync_failed`
carrying the accumulated `triedErrors` entries. -/
inductive FetchTaskResult where
  | fetched (endpoint : String) (body : String)
  | keyMissing
  | fetchError (triedErrors : List String)
  deriving DecidableEq, Repr

/-- One `triedErrors` entry (server.js line 508):
`` `${endpoint}:${res.status}:${errorBody.slice(0, 200)}` ``. -/
def meshyTriedErrorEntry (endpoint : String) (r : HttpResponse) : String :=
  endpoint ++ ":" ++ toString r.status ++ ":" ++ strTake r.body 200

/-- The endpoint loop of `fetchMeshyTask` (server.js lines 497-512): take the
first OK response; record a failure entry otherwise; keep going only when the
failure was a 404. -/
def fetchMeshyTaskGo (respond : String → HttpResponse) :
    List String → List String → FetchTaskResult
  | [], triedErrors => .fetchError triedErrors
  | endpoint :: rest, triedErrors =>
    let res := respond endpoint
    if respOk res then .fetched endpoint res.body
    else
      let triedErrors := triedErrors ++ [meshyTriedErrorEntry endpoint res]
      if res.status ≠ 404 then .fetchError triedErrors
      else fetchMeshyTaskGo respond rest triedErrors

/-- `fetchMeshyTask` (server.js lines 491-514).  `respond` is the network
oracle: the response of `GET {MESHY_API_BASE}/{endpoint}/{taskId}` for this
call's task id, keyed by endpoint. -/
def fetchMeshyTask (hasKey : Bool) (respond : String → HttpResponse)
    (endpointHint : String) : FetchTaskResult :=
  if ¬ hasKey then .keyMissing
  else fetchMeshyTaskGo respond (getMeshyTaskEndpoints endpointHint) []

/-! ## Helper lemmas -/

/-- The job carried by either side of a `syncPipeline` result: the row the
handler persists (directly, or after the catch block stamps `"erro"`). -/
def exJob : Except Job Job → Job
  | .ok j => j
  | .error j => j

theorem mapMeshyStatus_range (s : String) :
    mapMeshyStatus s = "revisao" ∨ mapMeshyStatus s = "erro" ∨
      mapMeshyStatus s = "processando" := by
  unfold mapMeshyStatus
  dsimp only
  split
  · exact Or.inl rfl
  · split
    · exact Or.inr (Or.inl rfl)
    · exact Or.inr (Or.inr rfl)

theorem downloadModelToUploads_fetchOk (u e fid : String) :
    downloadModelToUploads u e true fid = .ok "" ∨
      downloadModelToUploads u e true fid
        = .ok ("/uploads/models/" ++ fid ++ normalizeModelExt e) := by
  unfold downloadModelToUploads
  split
  · exact Or.inl rfl
  · simp

theorem syncMaterializeGlb_error_eq {j j2 : Job} {o : SyncOracle}
    (h : syncMaterializeGlb j o = .error j2) : j2 = j := by
  unfold syncMaterializeGlb at h
  split at h
  · split at h <;> simp_all
  · simp_all

theorem syncMaterializeUsdz_error_eq {j j2 : Job} {o : SyncOracle}
    (h : syncMaterializeUsdz j o = .error j2) : j2 = j := by
  unfold syncMaterializeUsdz at h
  split at h
  · split at h <;> simp_all
  · simp_all

theorem syncMaterializeGlb_ok_frame {j j2 : Job} {o : SyncOracle}
    (h : syncMaterializeGlb j o = .ok j2) :
    j2.status = j.status ∧ j2.autoMode = j.autoMode ∧ j2.modelUsdz = j.modelUsdz ∧
      j2.providerStatus = j.providerStatus ∧
      j2.providerTaskEndpoint = j.providerTaskEndpoint ∧
      j2.provider = j.provider ∧ j2.providerTaskId = j.providerTaskId ∧
      (j.modelGlb ≠ "" → j2.modelGlb = j.modelGlb) := by
  unfold syncMaterializeGlb at h
  split at h
  · split at h
    · simp_all
      cases h
      simp_all
    · simp_all
  · cases h
    simp

theorem syncMaterializeUsdz_ok_frame {j j2 : Job} {o : SyncOracle}
    (h : syncMaterializeUsdz j o = .ok j2) :
    j2.status = j.status ∧ j2.autoMode = j.autoMode ∧ j2.modelGlb = j.modelGlb ∧
      j2.providerStatus = j.providerStatus ∧
      j2.providerTaskEndpoint = j.providerTaskEndpoint ∧
      j2.provider = j.provider ∧ j2.providerTaskId = j.providerTaskId ∧
      (j.modelUsdz ≠ "" → j2.modelUsdz = j.modelUsdz) := by
  unfold syncMaterializeUsdz at h
  split at h
  · split at h
    · simp_all
      cases h
      simp_all
    · simp_all
  · cases h
    simp

theorem syncMaterializeGlb_fetchOk_isOk (j : Job) (o : SyncOracle)
    (hg : o.glbFetchOk = true) : ∃ j2, syncMaterializeGlb j o = .ok j2 := by
  unfold syncMaterializeGlb
  split
  · rcases downloadModelToUploads_fetchOk o.modelUrls.glb ".glb" o.glbFreshId with h | h <;>
      rw [hg, h] <;> exact ⟨_, rfl⟩
  · exact ⟨j, rfl⟩

theorem syncMaterializeUsdz_fetchOk_isOk (j : Job) (o : SyncOracle)
    (hu : o.usdzFetchOk = true) : ∃ j2, syncMaterializeUsdz j o = .ok j2 := by
  unfold syncMaterializeUsdz
  split
  · rcases downloadModelToUploads_fetchOk o.modelUrls.usdz ".usdz" o.usdzFreshId with h | h <;>
      rw [hu, h] <;> exact ⟨_, rfl⟩
  · exact ⟨j, rfl⟩

theorem syncRevisaoSteps_glb_preserved (j : Job) (o : SyncOracle)
    (h : j.modelGlb ≠ "") : (exJob (syncRevisaoSteps j o)).modelGlb = j.modelGlb := by
  unfold syncRevisaoSteps
  rcases hglb : syncMaterializeGlb j o with jE | j2 <;> dsimp only
  · have hE := syncMaterializeGlb_error_eq hglb
    subst hE
    simp [exJob]
  · have hf2 := (syncMaterializeGlb_ok_frame hglb).2.2.2.2.2.2.2 h
    rcases husdz : syncMaterializeUsdz j2 o with jE | j3 <;> dsimp only
    · have hE := syncMaterializeUsdz_error_eq husdz
      subst hE
      simp [exJob, hf2]
    · have hf3 := (syncMaterializeUsdz_ok_frame husdz).2.2.1
      split <;> simp [exJob, hf3, hf2]

theorem syncRevisaoSteps_usdz_preserved (j : Job) (o : SyncOracle)
    (h : j.modelUsdz ≠ "") : (exJob (syncRevisaoSteps j o)).modelUsdz = j.modelUsdz := by
  unfold syncRevisaoSteps
  rcases hglb : syncMaterializeGlb j o with jE | j2 <;> dsimp only
  · have hE := syncMaterializeGlb_error_eq hglb
    subst hE
    simp [exJob]
  · have hf2 := (syncMaterializeGlb_ok_frame hglb).2.2.1
    have h2 : j2.modelUsdz ≠ "" := by rw [hf2]; exact h
    rcases husdz : syncMaterializeUsdz j2 o with jE | j3 <;> dsimp only
    · have hE := syncMaterializeUsdz_error_eq husdz
      subst hE
      simp [exJob, hf2]
    · have hf3 := (syncMaterializeUsdz_ok_frame husdz).2.2.2.2.2.2.2 h2
      split <;> simp [exJob, hf3, hf2]

theorem syncRevisaoSteps_ok_status {j j' : Job} {o : SyncOracle}
    (h : syncRevisaoSteps j o = .ok j') :
    j'.status = "publicado" ∨ j'.status = j.status := by
  unfold syncRevisaoSteps at h
  rcases hglb : syncMaterializeGlb j o with jE | j2 <;> rw [hglb] at h <;> dsimp only at h
  · cases h
  · have hf2 := (syncMaterializeGlb_ok_frame hglb).1
    rcases husdz : syncMaterializeUsdz j2 o with jE | j3 <;> rw [husdz] at h <;> dsimp only at h
    · cases h
    · have hf3 := (syncMaterializeUsdz_ok_frame husdz).1
      split at h
      · cases h
        left
        rfl
      · cases h
        right
        rw [hf3, hf2]

theorem syncRevisaoSteps_fetchOk {j : Job} {o : SyncOracle}
    (hg : o.glbFetchOk = true) (hu : o.usdzFetchOk = true) :
    ∃ j', syncRevisaoSteps j o = .ok j' ∧ j'.autoMode = j.autoMode ∧
      j'.status = (if j.autoMode = true ∧ o.autoPublish = some true
        then "publicado" else j.status) := by
  unfold syncRevisaoSteps
  obtain ⟨j2, hglb⟩ := syncMaterializeGlb_fetchOk_isOk j o hg
  obtain ⟨j3, husdz⟩ := syncMaterializeUsdz_fetchOk_isOk j2 o hu
  rw [hglb]
  dsimp only
  rw [husdz]
  dsimp only
  have hf2 := syncMaterializeGlb_ok_frame hglb
  have hf3 := syncMaterializeUsdz_ok_frame husdz
  have hauto : j3.autoMode = j.autoMode := by rw [hf3.2.1, hf2.2.1]
  have hstat : j3.status = j.status := by rw [hf3.1, hf2.1]
  by_cases hc : j.autoMode = true ∧ o.autoPublish = some true
  · rw [if_pos (show j3.autoMode = true ∧ o.autoPublish = some true by rw [hauto]; exact hc),
      if_pos hc]
    exact ⟨_, rfl, by simp [hauto], by simp⟩
  · rw [if_neg (show ¬ (j3.autoMode = true ∧ o.autoPublish = some true) by rw [hauto]; exact hc),
      if_neg hc]
    exact ⟨j3, rfl, hauto, hstat⟩

theorem syncPipeline_nonterminal (job : Job) (o : SyncOracle)
    (hpoll : o.pollOk = true) (hnt : mapMeshyStatus o.taskStatus = "processando") :
    syncPipeline job o = .ok (syncPolledJob job o) := by
  unfold syncPipeline
  rw [if_neg (by simp [hpoll])]
  dsimp only
  rw [if_neg (by simp [syncPolledJob, hnt])]

theorem syncPipeline_ok_status {job j : Job} {o : SyncOracle}
    (h : syncPipeline job o = .ok j) :
    j.status = "publicado" ∨ j.status = mapMeshyStatus o.taskStatus := by
  unfold syncPipeline at h
  by_cases hpoll : o.pollOk = true
  · rw [if_neg (by simp [hpoll])] at h
    dsimp only at h
    by_cases hrev : (syncPolledJob job o).status = "revisao"
    · rw [if_pos hrev] at h
      rcases syncRevisaoSteps_ok_status h with h1 | h1
      · exact Or.inl h1
      · right
        rw [h1]
        simp [syncPolledJob]
    · rw [if_neg hrev] at h
      cases h
      right
      simp [syncPolledJob]
  · rw [if_pos hpoll] at h
    cases h

theorem syncPipeline_glb_preserved (job : Job) (o : SyncOracle)
    (h : job.modelGlb ≠ "") : (exJob (syncPipeline job o)).modelGlb = job.modelGlb := by
  unfold syncPipeline
  by_cases hpoll : o.pollOk = true
  · rw [if_neg (by simp [hpoll])]
    dsimp only
    by_cases hrev : (syncPolledJob job o).status = "revisao"
    · rw [if_pos hrev]
      have hpolled : (syncPolledJob job o).modelGlb = job.modelGlb := by simp [syncPolledJob]
      have := syncRevisaoSteps_glb_preserved (syncPolledJob job o) o (by rw [hpolled]; exact h)
      rw [this, hpolled]
    · rw [if_neg hrev]
      simp [exJob, syncPolledJob]
  · rw [if_pos hpoll]
    simp [exJob]

theorem syncPipeline_usdz_preserved (job : Job) (o : SyncOracle)
    (h : job.modelUsdz ≠ "") : (exJob (syncPipeline job o)).modelUsdz = job.modelUsdz := by
  unfold syncPipeline
  by_cases hpoll : o.pollOk = true
  · rw [if_neg (by simp [hpoll])]
    dsimp only
    by_cases hrev : (syncPolledJob job o).status = "revisao"
    · rw [if_pos hrev]
      have hpolled : (syncPolledJob job o).modelUsdz = job.modelUsdz := by simp [syncPolledJob]
      have := syncRevisaoSteps_usdz_preserved (syncPolledJob job o) o (by rw [hpolled]; exact h)
      rw [this, hpolled]
    · rw [if_neg hrev]
      simp [exJob, syncPolledJob]
  · rw [if_pos hpoll]
    simp [exJob]

theorem syncHandler_nonterminal (job : Job) (item : Option Item) (o : SyncOracle)
    (hprov : job.provider = "meshy") (htask : job.providerTaskId ≠ "")
    (hpoll : o.pollOk = true) (hnt : mapMeshyStatus o.taskStatus = "processando") :
    syncHandler job item o
      = .synced { syncPolledJob job o with updatedAt := o.now } item o.taskStatus := by
  unfold syncHandler
  rw [if_neg (by simp [hprov]), if_neg htask, syncPipeline_nonterminal job o hpoll hnt]
  dsimp only
  rw [if_neg (by simp [syncPolledJob, hnt])]

theorem syncHandler_models_preserved (job : Job) (item : Option Item) (o : SyncOracle) :
    (job.modelGlb ≠ "" →
      (syncPersistedJob job (syncHandler job item o)).modelGlb = job.modelGlb) ∧
    (job.modelUsdz ≠ "" →
      (syncPersistedJob job (syncHandler job item o)).modelUsdz = job.modelUsdz) := by
  unfold syncHandler
  by_cases hbr1 : job.provider ≠ "meshy"
  · rw [if_pos hbr1]
    simp [syncPersistedJob]
  · rw [if_neg hbr1]
    by_cases hbr2 : job.providerTaskId = ""
    · rw [if_pos hbr2]
      simp [syncPersistedJob]
    · rw [if_neg hbr2]
      constructor <;> intro h
      · have hp := syncPipeline_glb_preserved job o h
        rcases hres : syncPipeline job o with jE | jok <;> rw [hres] at hp <;>
          dsimp only <;> simp only [exJob] at hp <;> simp [syncPersistedJob, hp]
      · have hp := syncPipeline_usdz_preserved job o h
        rcases hres : syncPipeline job o with jE | jok <;> rw [hres] at hp <;>
          dsimp only <;> simp only [exJob] at hp <;> simp [syncPersistedJob, hp]

theorem syncRevisaoSteps_error_providerStatus {j jE : Job} {o : SyncOracle}
    (h : syncRevisaoSteps j o = .error jE) : jE.providerStatus = j.providerStatus := by
  unfold syncRevisaoSteps at h
  rcases hglb : syncMaterializeGlb j o with jX | j2 <;> rw [hglb] at h <;> dsimp only at h
  · cases h
    rw [syncMaterializeGlb_error_eq hglb]
  · have hf2 := (syncMaterializeGlb_ok_frame hglb).2.2.2.1
    rcases husdz : syncMaterializeUsdz j2 o with jX | j3 <;> rw [husdz] at h <;> dsimp only at h
    · cases h
      rw [syncMaterializeUsdz_error_eq husdz, hf2]
    · split at h <;> cases h

theorem syncPipeline_error_providerStatus {job jE : Job} {o : SyncOracle}
    (h : syncPipeline job o = .error jE) :
    jE.providerStatus = job.providerStatus ∨ jE.providerStatus = o.taskStatus := by
  unfold syncPipeline at h
  by_cases hpoll : o.pollOk = true
  · rw [if_neg (by simp [hpoll])] at h
    dsimp only at h
    by_cases hrev : (syncPolledJob job o).status = "revisao"
    · rw [if_pos hrev] at h
      right
      rw [syncRevisaoSteps_error_providerStatus h]
      simp [syncPolledJob]
    · rw [if_neg hrev] at h
      cases h
  · rw [if_pos hpoll] at h
    cases h
    exact Or.inl rfl

/-! ## Claim theorems -/

/-- C10: for every job with provider `meshy` and a non-empty `providerTaskId`,
a successful `sync` whose polled status maps outside both terminal buckets
persists `status = "processando"` unconditionally — in particular a job
currently in `revisao` or `publicado` (the prior status is unconstrained here)
is moved back to `processando`, so sync can regress the pipeline status. -/
theorem c10_sync_nonterminal_regresses (job : Job) (item : Option Item) (o : SyncOracle)
    (hprov : job.provider = "meshy") (htask : job.providerTaskId ≠ "")
    (hpoll : o.pollOk = true) (hnt : mapMeshyStatus o.taskStatus = "processando") :
    syncHandler job item o
      = .synced { syncPolledJob job o with updatedAt := o.now } item o.taskStatus ∧
    (syncPersistedJob job (syncHandler job item o)).status = "processando" := by
  have h1 := syncHandler_nonterminal job item o hprov htask hpoll hnt
  refine ⟨h1, ?_⟩
  rw [h1]
  simp [syncPersistedJob, syncPolledJob, hnt]

/-- Concrete input for C10: a job already published, polled as still running. -/
def regressJob : Job :=
  { provider := "meshy", providerTaskId := "task-10", status := "publicado",
    providerStatus := "SUCCEEDED", modelGlb := "/uploads/models/a.glb" }

/-- Concrete oracle for C10: a non-terminal raw provider status. -/
def pendingOracle : SyncOracle := { taskStatus := "IN_PROGRESS", now := 11 }

/-- Witness for C10 at a `publicado` job and a pending poll. -/
theorem c10_sync_nonterminal_regresses_witness :
    regressJob.provider = "meshy" ∧ regressJob.providerTaskId ≠ "" ∧
    pendingOracle.pollOk = true ∧
    mapMeshyStatus pendingOracle.taskStatus = "processando" ∧
    regressJob.status = "publicado" ∧
    (syncPersistedJob regressJob (syncHandler regressJob none pendingOracle)).status
      = "processando" :=
  ⟨rfl, by decide, rfl, by decide, rfl,
    (c10_sync_nonterminal_regresses regressJob none pendingOracle rfl (by decide) rfl
      (by decide)).2⟩

/-- C4: two consecutive syncs that both poll the same non-terminal provider
status leave `modelGlb`, `modelUsdz` and `status` of the second persisted job
identical to the first persisted job's values (only `providerStatus`,
`providerTaskEndpoint` and `updatedAt` may differ). -/
theorem c4_sync_idempotent_nonterminal (job j1 j2 : Job) (item : Option Item)
    (o1 o2 : SyncOracle)
    (hprov : job.provider = "meshy") (htask : job.providerTaskId ≠ "")
    (hp1 : o1.pollOk = true) (hp2 : o2.pollOk = true)
    (hnt : mapMeshyStatus o1.taskStatus = "processando")
    (hsame : o2.taskStatus = o1.taskStatus)
    (hj1 : j1 = syncPersistedJob job (syncHandler job item o1))
    (hj2 : j2 = syncPersistedJob j1 (syncHandler j1 item o2)) :
    j2.modelGlb = j1.modelGlb ∧ j2.modelUsdz = j1.modelUsdz ∧ j2.status = j1.status := by
  have h1 := syncHandler_nonterminal job item o1 hprov htask hp1 hnt
  have hj1e : j1 = { syncPolledJob job o1 with updatedAt := o1.now } := by
    rw [hj1, h1]
    rfl
  have hprov1 : j1.provider = "meshy" := by
    rw [hj1e]
    simpa [syncPolledJob] using hprov
  have htask1 : j1.providerTaskId ≠ "" := by
    rw [hj1e]
    simpa [syncPolledJob] using htask
  have hnt2 : mapMeshyStatus o2.taskStatus = "processando" := by rw [hsame]; exact hnt
  have h2 := syncHandler_nonterminal j1 item o2 hprov1 htask1 hp2 hnt2
  have hj2e : j2 = { syncPolledJob j1 o2 with updatedAt := o2.now } := by
    rw [hj2, h2]
    rfl
  refine ⟨?_, ?_, ?_⟩ <;> rw [hj2e, hj1e] <;> simp [syncPolledJob, hnt, hnt2]

/-- Concrete input for C4. -/
def idemJob : Job :=
  { provider := "meshy", providerTaskId := "task-4", status := "processando",
    providerStatus := "PENDING" }

/-- First concrete sync oracle for C4. -/
def idemOracle1 : SyncOracle := { taskStatus := "PENDING", now := 1 }

/-- Second concrete sync oracle for C4: same non-terminal status, later time. -/
def idemOracle2 : SyncOracle := { taskStatus := "PENDING", now := 2 }

/-- The persisted job after the first concrete C4 sync. -/
def idemJob1 : Job := syncPersistedJob idemJob (syncHandler idemJob none idemOracle1)

/-- The persisted job after the second concrete C4 sync. -/
def idemJob2 : Job := syncPersistedJob idemJob1 (syncHandler idemJob1 none idemOracle2)

/-- Witness for C4 at two concrete "PENDING" polls. -/
theorem c4_sync_idempotent_nonterminal_witness :
    mapMeshyStatus "PENDING" = "processando" ∧
    (idemJob2.modelGlb = idemJob1.modelGlb ∧ idemJob2.modelUsdz = idemJob1.modelUsdz ∧
      idemJob2.status = idemJob1.status) :=
  ⟨by decide,
    c4_sync_idempotent_nonterminal idemJob idemJob1 idemJob2 none idemOracle1 idemOracle2
      rfl (by decide) rfl rfl (by decide) rfl rfl rfl⟩

/-- C5: when `modelGlb` (resp. `modelUsdz`) is already non-empty before a sync,
a sync reporting a terminal-success status with fresh provider URLs persists
that field unchanged — materialization only fills currently empty fields. -/
theorem c5_materialization_nondestructive (job : Job) (item : Option Item) (o : SyncOracle)
    (hprov : job.provider = "meshy") (htask : job.providerTaskId ≠ "")
    (hpoll : o.pollOk = true) (hterm : mapMeshyStatus o.taskStatus = "revisao")
    (hglbUrl : o.modelUrls.glb ≠ "") (husdzUrl : o.modelUrls.usdz ≠ "")
    (hglb : job.modelGlb ≠ "") (husdz : job.modelUsdz ≠ "") :
    (syncPersistedJob job (syncHandler job item o)).modelGlb = job.modelGlb ∧
    (syncPersistedJob job (syncHandler job item o)).modelUsdz = job.modelUsdz :=
  ⟨(syncHandler_models_preserved job item o).1 hglb,
   (syncHandler_models_preserved job item o).2 husdz⟩

/-- Concrete input for C5: both artifact fields already materialized. -/
def keptJob : Job :=
  { provider := "meshy", providerTaskId := "task-5", status := "revisao",
    providerStatus := "SUCCEEDED", modelGlb := "/uploads/models/old.glb",
    modelUsdz := "/uploads/models/old.usdz" }

/-- Concrete oracle for C5: a successful poll offering fresh provider URLs. -/
def freshUrlsOracle : SyncOracle :=
  { taskStatus := "SUCCEEDED",
    modelUrls := { glb := "https://assets.example/new.glb",
                   usdz := "https://assets.example/new.usdz" },
    glbFreshId := "new-glb", usdzFreshId := "new-usdz", now := 12 }

/-- Witness for C5: the pre-set paths survive a fresh successful sync. -/
theorem c5_materialization_nondestructive_witness :
    mapMeshyStatus freshUrlsOracle.taskStatus = "revisao" ∧
    keptJob.modelGlb ≠ "" ∧
    ((syncPersistedJob keptJob (syncHandler keptJob none freshUrlsOracle)).modelGlb
        = keptJob.modelGlb ∧
      (syncPersistedJob keptJob (syncHandler keptJob none freshUrlsOracle)).modelUsdz
        = keptJob.modelUsdz) :=
  ⟨by decide, by decide,
    c5_materialization_nondestructive keptJob none freshUrlsOracle rfl (by decide) rfl
      (by decide) (by decide) (by decide) (by decide) (by decide)⟩

/-- C9: on a terminal-success poll (with both artifact downloads succeeding),
sync advances the job to `publicado` iff `autoMode` is true AND the request
body's `autoPublish` is strictly boolean `true`; otherwise the persisted
status is `revisao`. -/
theorem c9_autopublish_iff (job : Job) (item : Option Item) (o : SyncOracle)
    (hprov : job.provider = "meshy") (htask : job.providerTaskId ≠ "")
    (hpoll : o.pollOk = true) (hterm : mapMeshyStatus o.taskStatus = "revisao")
    (hg : o.glbFetchOk = true) (hu : o.usdzFetchOk = true) :
    ((syncPersistedJob job (syncHandler job item o)).status = "publicado"
        ↔ (job.autoMode = true ∧ o.autoPublish = some true)) ∧
    (¬ (job.autoMode = true ∧ o.autoPublish = some true) →
      (syncPersistedJob job (syncHandler job item o)).status = "revisao") := by
  obtain ⟨j', hsteps, hauto, hstat⟩ :=
    syncRevisaoSteps_fetchOk (j := syncPolledJob job o) (o := o) hg hu
  have hPolledAuto : (syncPolledJob job o).autoMode = job.autoMode := by
    simp [syncPolledJob]
  have hPolledStat : (syncPolledJob job o).status = "revisao" := by
    simp [syncPolledJob, hterm]
  rw [hPolledAuto, hPolledStat] at hstat
  have hrun : syncHandler job item o
      = .synced { j' with updatedAt := o.now }
          (if ({ j' with updatedAt := o.now } : Job).status = "publicado"
            then item.map (applyPublishCascade { j' with updatedAt := o.now })
            else item)
          o.taskStatus := by
    unfold syncHandler
    rw [if_neg (by simp [hprov]), if_neg htask]
    unfold syncPipeline
    rw [if_neg (by simp [hpoll])]
    dsimp only
    rw [if_pos hPolledStat, hsteps]
  rw [hrun]
  have hps : (syncPersistedJob job
      (SyncOutcome.synced { j' with updatedAt := o.now }
        (if ({ j' with updatedAt := o.now } : Job).status = "publicado"
          then item.map (applyPublishCascade { j' with updatedAt := o.now })
          else item)
        o.taskStatus)).status = j'.status := by
    simp [syncPersistedJob]
  rw [hps, hstat]
  by_cases hc : job.autoMode = true ∧ o.autoPublish = some true
  · rw [if_pos hc]
    exact ⟨by simp [hc], fun hn => absurd hc hn⟩
  · rw [if_neg hc]
    refine ⟨?_, fun _ => rfl⟩
    constructor
    · intro hs
      exact absurd hs (by decide)
    · intro hcc
      exact absurd hcc hc

/-- Concrete input for C9: an auto-mode job whose sync requests auto-publish. -/
def autoJob : Job :=
  { provider := "meshy", providerTaskId := "task-9", status := "processando",
    providerStatus := "IN_PROGRESS", autoMode := true }

/-- Concrete oracle for C9: terminal success plus `autoPublish: true`. -/
def autoPublishOracle : SyncOracle :=
  { taskStatus := "SUCCEEDED",
    modelUrls := { glb := "https://assets.example/m.glb" },
    autoPublish := some true, now := 13 }

/-- Witness for C9: auto-mode plus explicit auto-publish lands in `publicado`. -/
theorem c9_autopublish_iff_witness :
    mapMeshyStatus autoPublishOracle.taskStatus = "revisao" ∧
    ((syncPersistedJob autoJob (syncHandler autoJob none autoPublishOracle)).status
        = "publicado"
      ↔ (autoJob.autoMode = true ∧ autoPublishOracle.autoPublish = some true)) :=
  ⟨by decide,
    (c9_autopublish_iff autoJob none autoPublishOracle rfl (by decide) rfl (by decide)
      rfl rfl).1⟩

/-- Concrete input for C1: a processing meshy job with no artifacts yet. -/
def partialJob : Job :=
  { provider := "meshy", providerTaskId := "task-1", status := "processando",
    providerStatus := "IN_PROGRESS" }

/-- Concrete oracle for C1: terminal success, the GLB download succeeds and the
USDZ download fails. -/
def partialOracle : SyncOracle :=
  { pollOk := true, pollEndpoint := "image-to-3d", taskStatus := "SUCCEEDED",
    modelUrls := { glb := "https://assets.example/m.glb",
                   usdz := "https://assets.example/m.usdz" },
    glbFetchOk := true, usdzFetchOk := false, glbFreshId := "uuid-glb",
    usdzFreshId := "uuid-usdz", autoPublish := none, now := 5 }

/-- C1 counterexample: at this input the sync call fails as a whole
(`syncFailed`, the 502 `ai_sync_failed` path) and the persisted status is
`"erro"`, not `"revisao"` — refuting the claim as stated.  (The GLB write is
indeed persisted, as the stored `modelGlb` path in the outcome shows.) -/
theorem c1_partial_failure_counterexample :
    syncHandler partialJob none partialOracle
      = .syncFailed
          { provider := "meshy", providerTaskId := "task-1",
            providerTaskEndpoint := "image-to-3d", providerStatus := "SUCCEEDED",
            status := "erro", modelGlb := "/uploads/models/uuid-glb.glb",
            modelUsdz := "", updatedAt := 5 } none ∧
    (syncPersistedJob partialJob (syncHandler partialJob none partialOracle)).status
      ≠ "revisao" := by
  decide

/-- C1 amended: if the poll reports terminal success, the GLB materializes but
the USDZ download fails, then the already-performed GLB write is persisted on
the job (not rolled back), but the job's persisted status is `"erro"` — the
sync call fails as a whole through the catch block (502 `ai_sync_failed`),
rather than remaining `"revisao"`. -/
theorem c1_partial_failure_keeps_glb_but_errors (job : Job) (item : Option Item)
    (o : SyncOracle)
    (hprov : job.provider = "meshy") (htask : job.providerTaskId ≠ "")
    (hpoll : o.pollOk = true) (hterm : mapMeshyStatus o.taskStatus = "revisao")
    (hglbNe : o.modelUrls.glb ≠ "") (hglbUrl : isRemoteHttpUrl o.modelUrls.glb = true)
    (hglbEmpty : job.modelGlb = "") (hg : o.glbFetchOk = true)
    (husdzNe : o.modelUrls.usdz ≠ "") (husdzUrl : isRemoteHttpUrl o.modelUrls.usdz = true)
    (husdzEmpty : job.modelUsdz = "") (hu : o.usdzFetchOk = false) :
    syncHandler job item o
      = .syncFailed
          { syncPolledJob job o with
            modelGlb := "/uploads/models/" ++ o.glbFreshId ++ ".glb",
            status := "erro", updatedAt := o.now } item := by
  have hdl : downloadModelToUploads o.modelUrls.glb ".glb" o.glbFetchOk o.glbFreshId
      = .ok ("/uploads/models/" ++ o.glbFreshId ++ ".glb") := by
    unfold downloadModelToUploads
    rw [if_neg (by simp [hglbUrl]), if_neg (by simp [hg])]
    rw [show normalizeModelExt ".glb" = ".glb" from by decide]
  have hdu : downloadModelToUploads o.modelUrls.usdz ".usdz" o.usdzFetchOk o.usdzFreshId
      = .error "model_download_failed" := by
    unfold downloadModelToUploads
    rw [if_neg (by simp [husdzUrl]), if_pos (by simp [hu])]
  have hmg : syncMaterializeGlb (syncPolledJob job o) o
      = .ok { syncPolledJob job o with
              modelGlb := "/uploads/models/" ++ o.glbFreshId ++ ".glb" } := by
    unfold syncMaterializeGlb
    rw [if_pos ⟨hglbNe, by simp [syncPolledJob, hglbEmpty]⟩, hdl]
  have hmu : syncMaterializeUsdz
      ({ syncPolledJob job o with
         modelGlb := "/uploads/models/" ++ o.glbFreshId ++ ".glb" } : Job) o
      = .error { syncPolledJob job o with
                 modelGlb := "/uploads/models/" ++ o.glbFreshId ++ ".glb" } := by
    unfold syncMaterializeUsdz
    rw [if_pos ⟨husdzNe, by simp [syncPolledJob, husdzEmpty]⟩, hdu]
  have hsteps : syncRevisaoSteps (syncPolledJob job o) o
      = .error { syncPolledJob job o with
                 modelGlb := "/uploads/models/" ++ o.glbFreshId ++ ".glb" } := by
    unfold syncRevisaoSteps
    rw [hmg]
    dsimp only
    rw [hmu]
  have hpipe : syncPipeline job o
      = .error { syncPolledJob job o with
                 modelGlb := "/uploads/models/" ++ o.glbFreshId ++ ".glb" } := by
    unfold syncPipeline
    rw [if_neg (by simp [hpoll])]
    dsimp only
    rw [if_pos (by simp [syncPolledJob, hterm]), hsteps]
  unfold syncHandler
  rw [if_neg (by simp [hprov]), if_neg htask, hpipe]

/-- Witness for the amended C1 at the concrete partial-failure input. -/
theorem c1_partial_failure_keeps_glb_but_errors_witness :
    mapMeshyStatus partialOracle.taskStatus = "revisao" ∧
    partialOracle.usdzFetchOk = false ∧
    syncHandler partialJob none partialOracle
      = .syncFailed
          { syncPolledJob partialJob partialOracle with
            modelGlb := "/uploads/models/" ++ partialOracle.glbFreshId ++ ".glb",
            status := "erro", updatedAt := partialOracle.now } none :=
  ⟨by decide, rfl,
    c1_partial_failure_keeps_glb_but_errors partialJob none partialOracle rfl (by decide)
      rfl (by decide) (by decide) (by decide) rfl rfl (by decide) (by decide) rfl rfl⟩

/-- Concrete input for C2: a job that has just been started successfully. -/
def startedJob : Job :=
  { provider := "meshy", providerTaskId := "task-2", status := "processando",
    providerStatus := "SUBMITTED" }

/-- Concrete oracle for C2: the provider poll itself throws. -/
def failedPollOracle : SyncOracle := { pollOk := false, now := 9 }

/-- C2 counterexample: a failed sync persists `status = "erro"` but writes no
`providerStatus` diagnostic marker — the pre-call value `"SUBMITTED"` is left
untouched, refuting the claim that every failed start/sync call persists a
`providerStatus` marker alongside `erro`. -/
theorem c2_sync_failure_counterexample :
    syncHandler startedJob none failedPollOracle
      = .syncFailed { startedJob with status := "erro", updatedAt := 9 } none ∧
    (syncPersistedJob startedJob
        (syncHandler startedJob none failedPollOracle)).providerStatus
      = startedJob.providerStatus ∧
    startedJob.providerStatus = "SUBMITTED" := by
  decide

/-- C2 amended: a failed `start` persists `status = "erro"` together with the
diagnostic marker `providerStatus = "ERROR_ON_START"`.  A failed `sync` also
persists `status = "erro"` (so the job never stays in `processando`), but its
catch block writes no `providerStatus` marker: the persisted `providerStatus`
is either the pre-call value (the poll threw) or the raw polled status (a
later step threw). -/
theorem c2_failures_persist_erro (job : Job) (item : Option Item)
    (so : StartOracle) (yo : SyncOracle) :
    (∀ j, startHandler job item so = .startFailed j →
        j.status = "erro" ∧ j.providerStatus = "ERROR_ON_START") ∧
    (∀ j oi, syncHandler job item yo = .syncFailed j oi →
        j.status = "erro" ∧
          (j.providerStatus = job.providerStatus ∨ j.providerStatus = yo.taskStatus)) := by
  constructor
  · intro j h
    unfold startHandler at h
    cases item <;> dsimp only at h
    · cases h
    · split at h
      · cases h
      · split at h
        · cases h
        · split at h
          · cases h
          · split at h
            · cases h
              exact ⟨rfl, rfl⟩
            · split at h
              · cases h
              · split at h
                · cases h
                  exact ⟨rfl, rfl⟩
                · cases h
  · intro j oi h
    unfold syncHandler at h
    split at h
    · cases h
    · split at h
      · cases h
      · rcases hres : syncPipeline job yo with jE | jok <;> rw [hres] at h <;> dsimp only at h
        · cases h
          refine ⟨rfl, ?_⟩
          simpa using syncPipeline_error_providerStatus hres
        · cases h

/-- Concrete start oracle for C2: the Meshy submission throws. -/
def failedSubmitOracle : StartOracle :=
  { imageInputs := ["https://img.example/a.png"], submitOk := false, now := 7 }

/-- Witness for the amended C2: both failure paths at concrete inputs. -/
theorem c2_failures_persist_erro_witness :
    ((startCatch startedJob 7).status = "erro" ∧
      (startCatch startedJob 7).providerStatus = "ERROR_ON_START") ∧
    (({ startedJob with status := "erro", updatedAt := 9 } : Job).status = "erro" ∧
      (({ startedJob with status := "erro", updatedAt := 9 } : Job).providerStatus
          = startedJob.providerStatus ∨
        ({ startedJob with status := "erro", updatedAt := 9 } : Job).providerStatus
          = failedPollOracle.taskStatus)) :=
  ⟨(c2_failures_persist_erro startedJob (some {}) failedSubmitOracle failedPollOracle).1
      (startCatch startedJob 7) (by decide),
   (c2_failures_persist_erro startedJob none failedSubmitOracle failedPollOracle).2
      { startedJob with status := "erro", updatedAt := 9 } none (by decide)⟩

theorem applyPublishCascade_fields (j : Job) (it : Item) :
    (j.modelGlb ≠ "" → (applyPublishCascade j it).modelGlb = j.modelGlb) ∧
    (j.modelGlb = "" → (applyPublishCascade j it).modelGlb = it.modelGlb) ∧
    (j.modelUsdz ≠ "" → (applyPublishCascade j it).modelUsdz = j.modelUsdz) ∧
    (j.modelUsdz = "" → (applyPublishCascade j it).modelUsdz = it.modelUsdz) := by
  unfold applyPublishCascade
  by_cases h1 : j.modelGlb = "" <;> by_cases h2 : j.modelUsdz = "" <;> simp [h1, h2]

theorem syncHandler_synced_item {job : Job} {it : Item} {o : SyncOracle} {j' : Job}
    {oi : Option Item} {ps : String}
    (h : syncHandler job (some it) o = .synced j' oi ps) :
    oi = some (if j'.status = "publicado" then applyPublishCascade j' it else it) := by
  unfold syncHandler at h
  split at h
  · cases h
  · split at h
    · cases h
    · rcases hres : syncPipeline job o with jE | jok <;> rw [hres] at h <;> dsimp only at h
      · cases h
      · injection h with h1 h2 h3
        subst h1
        subst h2
        split <;> rename_i hc <;> simp [hc]

theorem putFinish_saved {job : Job} {item : Option Item} {body : EditBody} {now : Nat}
    {j' : Job} {oi : Option Item}
    (h : putFinish job item body now = .saved j' oi) :
    j'.status = job.status ∧
    oi = (if j'.status = "publicado" then item.map (applyPublishCascade j') else item) := by
  unfold putFinish at h
  cases hba : body.aiModel <;> rw [hba] at h <;> dsimp only at h <;>
    injection h with h1 h2 <;> subst h1 <;> subst h2 <;> exact ⟨rfl, rfl⟩

theorem putAfterStatus_saved {job : Job} {item : Option Item} {body : EditBody} {now : Nat}
    {k : Bool} {j' : Job} {oi : Option Item}
    (h : putAfterStatus job item body now k = .saved j' oi) :
    j'.status = job.status ∧
    oi = (if j'.status = "publicado" then item.map (applyPublishCascade j') else item) := by
  unfold putAfterStatus at h
  cases hbn : body.notes <;> rw [hbn] at h <;>
    cases hbg : body.modelGlb <;> rw [hbg] at h <;>
    cases hbu : body.modelUsdz <;> rw [hbu] at h <;>
    cases hbp : body.provider <;> rw [hbp] at h <;> dsimp only at h
  all_goals
    try exact ⟨(putFinish_saved h).1, (putFinish_saved h).2⟩
  all_goals
    split at h
  all_goals
    first
    | exact ⟨(putFinish_saved h).1, (putFinish_saved h).2⟩
    | cases h

theorem putModelJob_saved {job : Job} {item : Option Item} {body : EditBody} {now : Nat}
    {k : Bool} {j' : Job} {oi : Option Item}
    (h : putModelJob job item body now k = .saved j' oi) :
    (j'.status = job.status ∨ j'.status ∈ allowedStatus) ∧
    oi = (if j'.status = "publicado" then item.map (applyPublishCascade j') else item) := by
  unfold putModelJob at h
  cases hbs : body.status <;> rw [hbs] at h <;> dsimp only at h
  · exact ⟨Or.inl (putAfterStatus_saved h).1, (putAfterStatus_saved h).2⟩
  · rename_i s
    split at h
    · cases h
    · rename_i hmem
      have hsv := putAfterStatus_saved h
      refine ⟨Or.inr ?_, hsv.2⟩
      rw [hsv.1]
      simpa using not_not.mp hmem

/-- C6: on any transition into `publicado` — by direct edit or by sync
auto-publish — with the linked item present, a non-empty job `modelGlb`
(resp. `modelUsdz`) is copied onto the item's field, and an empty job field
leaves the item's existing value untouched. -/
theorem c6_publish_cascade (job : Job) (it : Item) (body : EditBody) (o : SyncOracle)
    (now : Nat) (k : Bool) :
    (∀ j' it', putModelJob job (some it) body now k = .saved j' (some it') →
        j'.status = "publicado" →
        ((j'.modelGlb ≠ "" → it'.modelGlb = j'.modelGlb) ∧
         (j'.modelGlb = "" → it'.modelGlb = it.modelGlb) ∧
         (j'.modelUsdz ≠ "" → it'.modelUsdz = j'.modelUsdz) ∧
         (j'.modelUsdz = "" → it'.modelUsdz = it.modelUsdz))) ∧
    (∀ j' it' ps, syncHandler job (some it) o = .synced j' (some it') ps →
        j'.status = "publicado" →
        ((j'.modelGlb ≠ "" → it'.modelGlb = j'.modelGlb) ∧
         (j'.modelGlb = "" → it'.modelGlb = it.modelGlb) ∧
         (j'.modelUsdz ≠ "" → it'.modelUsdz = j'.modelUsdz) ∧
         (j'.modelUsdz = "" → it'.modelUsdz = it.modelUsdz))) := by
  constructor
  · intro j' it' h hpub
    have hoi := (putModelJob_saved h).2
    rw [if_pos hpub] at hoi
    simp only [Option.map_some'] at hoi
    cases hoi
    exact applyPublishCascade_fields j' it
  · intro j' it' ps h hpub
    have hoi := syncHandler_synced_item h
    rw [if_pos hpub] at hoi
    cases hoi
    exact applyPublishCascade_fields j' it

/-- Concrete input for C6: a reviewed job with a GLB but no USDZ, published by
a direct status edit. -/
def pubJob : Job :=
  { provider := "manual", status := "revisao", modelGlb := "/uploads/models/p.glb",
    modelUsdz := "" }

/-- Concrete edit body for C6: a direct edit setting `status = "publicado"`. -/
def pubBody : EditBody := { status := some "publicado" }

/-- Concrete linked item for C6, with pre-existing model paths. -/
def pubItem : Item :=
  { image := "i.png", modelGlb := "/uploads/models/old.glb",
    modelUsdz := "/uploads/models/old.usdz" }

/-- The job persisted by the concrete C6 direct edit. -/
def pubSavedJob : Job := { pubJob with status := "publicado", updatedAt := 3 }

/-- The item persisted by the concrete C6 direct edit. -/
def pubSavedItem : Item := { pubItem with modelGlb := "/uploads/models/p.glb" }

/-- Witness for C6: publishing copies the job's GLB onto the item and leaves
the item's USDZ untouched (the job's USDZ being empty). -/
theorem c6_publish_cascade_witness :
    putModelJob pubJob (some pubItem) pubBody 3 true = .saved pubSavedJob (some pubSavedItem) ∧
    pubSavedJob.status = "publicado" ∧
    ((pubSavedJob.modelGlb ≠ "" → pubSavedItem.modelGlb = pubSavedJob.modelGlb) ∧
     (pubSavedJob.modelGlb = "" → pubSavedItem.modelGlb = pubItem.modelGlb) ∧
     (pubSavedJob.modelUsdz ≠ "" → pubSavedItem.modelUsdz = pubSavedJob.modelUsdz) ∧
     (pubSavedJob.modelUsdz = "" → pubSavedItem.modelUsdz = pubItem.modelUsdz)) :=
  ⟨by decide, by decide,
    (c6_publish_cascade pubJob pubItem pubBody {} 3 true).1 pubSavedJob pubSavedItem
      (by decide) (by decide)⟩

theorem startPersistedJob_status_cases (job : Job) (item : Option Item) (o : StartOracle) :
    (startPersistedJob job (startHandler job item o)).status = job.status ∨
    (startPersistedJob job (startHandler job item o)).status = "processando" ∨
    (startPersistedJob job (startHandler job item o)).status = "erro" := by
  unfold startHandler
  cases item <;> dsimp only
  · left
    rfl
  · split
    · left
      rfl
    · split
      · left
        rfl
      · split
        · left
          rfl
        · split
          · right
            right
            rfl
          · split
            · left
              rfl
            · split
              · right
                right
                rfl
              · right
                left
                rfl

theorem syncPersistedJob_status_cases (job : Job) (item : Option Item) (o : SyncOracle) :
    (syncPersistedJob job (syncHandler job item o)).status = job.status ∨
    (syncPersistedJob job (syncHandler job item o)).status = "publicado" ∨
    (syncPersistedJob job (syncHandler job item o)).status = mapMeshyStatus o.taskStatus ∨
    (syncPersistedJob job (syncHandler job item o)).status = "erro" := by
  unfold syncHandler
  split
  · left
    rfl
  · split
    · left
      rfl
    · rcases hres : syncPipeline job o with jE | jok <;> dsimp only
      · right
        right
        right
        rfl
      · rcases syncPipeline_ok_status hres with h1 | h1
      
        · right
          left
          simpa [syncPersistedJob] using h1
        · right
          right
          left
          simpa [syncPersistedJob] using h1

theorem putPersistedJob_status_cases (job : Job) (item : Option Item) (body : EditBody)
    (now : Nat) (k : Bool) :
    (putPersistedJob job (putModelJob job item body now k)).status = job.status ∨
    (putPersistedJob job (putModelJob job item body now k)).status ∈ allowedStatus := by
  rcases hout : putModelJob job item body now k with code | ⟨j', oi⟩
  · left
    rfl
  · rcases (putModelJob_saved hout).1 with h | h
    · left
      simpa [putPersistedJob] using h
    · right
      simpa [putPersistedJob] using h

/-- C3: every persisted `status` stays inside the six-value enum
{`enviado`, `triagem`, `processando`, `revisao`, `publicado`, `erro`}: job
creation starts at `"enviado"`, `mapMeshyStatus` only produces enum members
(so no raw provider vocabulary ever lands in `status`), and the direct-edit,
start and sync handlers each persist an enum status whenever the incoming one
was in the enum. -/
theorem c3_status_enum_invariant (job : Job) (item : Option Item) (body : EditBody)
    (so : StartOracle) (yo : SyncOracle) (prov aim nts : String) (am : Bool)
    (cnow pnow : Nat) (k : Bool)
    (hjob : job.status ∈ allowedStatus) :
    (createModelJob prov aim am nts cnow).status ∈ allowedStatus ∧
    (∀ s, mapMeshyStatus s ∈ allowedStatus) ∧
    (putPersistedJob job (putModelJob job item body pnow k)).status ∈ allowedStatus ∧
    (startPersistedJob job (startHandler job item so)).status ∈ allowedStatus ∧
    (syncPersistedJob job (syncHandler job item yo)).status ∈ allowedStatus := by
  have hmap : ∀ s, mapMeshyStatus s ∈ allowedStatus := by
    intro s
    rcases mapMeshyStatus_range s with h | h | h <;> rw [h] <;> decide
  refine ⟨(by decide : ("enviado" : String) ∈ allowedStatus), hmap, ?_, ?_, ?_⟩
  · rcases putPersistedJob_status_cases job item body pnow k with h | h
    · rw [h]; exact hjob
    · exact h
  · rcases startPersistedJob_status_cases job item so with h | h | h <;> rw [h]
    · exact hjob
    · decide
    · decide
  · rcases syncPersistedJob_status_cases job item yo with h | h | h | h <;> rw [h]
    · exact hjob
    · decide
    · exact hmap yo.taskStatus
    · decide

/-- Concrete job for the C3 witness. -/
def enumJob : Job :=
  { provider := "meshy", providerTaskId := "task-3", status := "processando",
    providerStatus := "PENDING" }

/-- Witness for C3 at concrete inputs for every operation. -/
theorem c3_status_enum_invariant_witness :
    enumJob.status ∈ allowedStatus ∧
    (createModelJob "manual" "" false "" 0).status ∈ allowedStatus ∧
    mapMeshyStatus "SOME_RAW_VENDOR_STATUS" ∈ allowedStatus ∧
    (putPersistedJob enumJob
        (putModelJob enumJob none { status := some "triagem" } 4 true)).status
      ∈ allowedStatus ∧
    (startPersistedJob enumJob (startHandler enumJob none {})).status
      ∈ allowedStatus ∧
    (syncPersistedJob enumJob
        (syncHandler enumJob none { taskStatus := "SUCCEEDED" })).status
      ∈ allowedStatus :=
  have hc := c3_status_enum_invariant enumJob none { status := some "triagem" } {}
    { taskStatus := "SUCCEEDED" } "manual" "" "" false 0 4 true (by decide)
  ⟨by decide, hc.1, hc.2.1 "SOME_RAW_VENDOR_STATUS", hc.2.2.1, hc.2.2.2.1, hc.2.2.2.2⟩

theorem buildJobImageInputsGo_eq_take (resolve : String → String) (maxImages : Nat) :
    ∀ (cands unique : List String), unique.length < maxImages →
      buildJobImageInputsGo resolve maxImages cands unique
        = (unique ++ dedupResolveSpec resolve unique cands).take maxImages := by
  intro cands
  induction cands with
  | nil =>
    intro unique h
    unfold buildJobImageInputsGo dedupResolveSpec
    rw [List.append_nil, List.take_of_length_le (Nat.le_of_lt h)]
  | cons c rest ih =>
    intro unique h
    unfold buildJobImageInputsGo dedupResolveSpec
    dsimp only
    by_cases hskip : resolve c = "" ∨ resolve c ∈ unique
    · rw [if_pos hskip, if_pos hskip]
      exact ih unique h
    · rw [if_neg hskip, if_neg hskip]
      by_cases hcap : maxImages ≤ (unique ++ [resolve c]).length
      · rw [if_pos hcap]
        have hlen : maxImages = unique.length + 1 := by
          simp only [List.length_append, List.length_singleton] at hcap
          omega
        rw [hlen, List.take_append 1]
        simp
      · rw [if_neg hcap]
        have h2 : (unique ++ [resolve c]).length < maxImages := Nat.lt_of_not_le hcap
        rw [ih (unique ++ [resolve c]) h2, List.append_assoc, List.singleton_append]

theorem dedupResolveSpec_nodup (resolve : String → String) :
    ∀ (cands seen : List String),
      (∀ v ∈ dedupResolveSpec resolve seen cands, v ∉ seen) ∧
      (dedupResolveSpec resolve seen cands).Nodup := by
  intro cands
  induction cands with
  | nil =>
    intro seen
    constructor
    · intro v hv
      simp [dedupResolveSpec] at hv
    · simp [dedupResolveSpec]
  | cons c rest ih =>
    intro seen
    unfold dedupResolveSpec
    dsimp only
    by_cases hskip : resolve c = "" ∨ resolve c ∈ seen
    · rw [if_pos hskip]
      exact ih seen
    · rw [if_neg hskip]
      push_neg at hskip
      obtain ⟨hne, hmem⟩ := hskip
      constructor
      · intro v hv
        rcases List.mem_cons.mp hv with rfl | hv'
        · exact hmem
        · have hfresh := (ih (seen ++ [resolve c])).1 v hv'
          intro hvs
          exact hfresh (List.mem_append_left _ hvs)
      · refine List.nodup_cons.mpr ⟨?_, (ih (seen ++ [resolve c])).2⟩
        intro hin
        exact (ih (seen ++ [resolve c])).1 _ hin
          (List.mem_append_right _ (List.mem_singleton_self _))

/-- C7: `buildJobImageInputs` equals the first `maxImages` entries of the
ordered, value-deduplicated resolution of the candidate list — job reference
images most-recent-first, then item scans most-recent-first, then the item's
primary image (`orderedCandidates`) — so with any number of resolvable
candidates the result is capped at the configured maximum
(`MESHY_MAX_REFERENCE_IMAGES`, default 4) and never contains two candidates
resolving to the same value. -/
theorem c7_build_inputs_ordered_dedup_capped (resolve : String → String)
    (maxImages : Nat) (item : Item) (job : Job) (hmax : 1 ≤ maxImages) :
    buildJobImageInputs resolve maxImages item job
      = (dedupResolveSpec resolve [] (orderedCandidates item job)).take maxImages ∧
    (buildJobImageInputs resolve maxImages item job).length ≤ maxImages ∧
    (buildJobImageInputs resolve maxImages item job).Nodup := by
  have he : buildJobImageInputs resolve maxImages item job
      = (dedupResolveSpec resolve [] (orderedCandidates item job)).take maxImages := by
    unfold buildJobImageInputs
    rw [buildJobImageInputsGo_eq_take resolve maxImages (orderedCandidates item job) []
      (by simpa using hmax)]
    rw [List.nil_append]
  refine ⟨he, ?_, ?_⟩
  · rw [he]
    exact List.length_take_le _ _
  · rw [he]
    exact ((dedupResolveSpec_nodup resolve (orderedCandidates item job) []).2).sublist
      (List.take_sublist _ _)

/-- Concrete resolver for the C7 witness: every candidate resolves to itself
(all candidates resolvable, none skipped). -/
def passResolve : String → String := fun s => s

/-- Concrete item for C7: two scans and a primary image. -/
def manyItem : Item := { image := "i.png", scans := ["s1.png", "s2.png"] }

/-- Concrete job for C7: three uploaded reference images. -/
def manyJob : Job := { referenceImages := ["r1.png", "r2.png", "r3.png"] }

/-- Witness for C7: six resolvable candidates, capped to the default 4, newest
job references first. -/
theorem c7_build_inputs_ordered_dedup_capped_witness :
    1 ≤ 4 ∧
    (buildJobImageInputs passResolve 4 manyItem manyJob
        = (dedupResolveSpec passResolve [] (orderedCandidates manyItem manyJob)).take 4 ∧
      (buildJobImageInputs passResolve 4 manyItem manyJob).length ≤ 4 ∧
      (buildJobImageInputs passResolve 4 manyItem manyJob).Nodup) :=
  ⟨by decide,
    c7_build_inputs_ordered_dedup_capped passResolve 4 manyItem manyJob (by decide)⟩

theorem respOk_404 {r : HttpResponse} (h : r.status = 404) : respOk r = false := by
  unfold respOk
  rw [h]
  decide

theorem getMeshyTaskEndpoints_cases (endpointHint : String) :
    getMeshyTaskEndpoints endpointHint = ["image-to-3d", "multi-image-to-3d"] ∨
    getMeshyTaskEndpoints endpointHint = ["multi-image-to-3d", "image-to-3d"] := by
  unfold getMeshyTaskEndpoints
  dsimp only
  split
  · right
    decide
  · split
    · left
      decide
    · left
      decide

/-- C8: polling always consults an ordered pair of the two known endpoints
(the hinted one first).  A 404 from the first endpoint triggers exactly one
retry against the single alternate endpoint (whose response then decides the
outcome, the error case recording both attempts); an OK first response
returns immediately; any non-OK status other than 404 aborts at once with
only the first attempt recorded, never consulting the alternate. -/
theorem c8_endpoint_fallback (respond : String → HttpResponse)
    (endpointHint e1 e2 : String)
    (he : getMeshyTaskEndpoints endpointHint = [e1, e2]) :
    e1 ≠ e2 ∧
    (respOk (respond e1) = true →
      fetchMeshyTask true respond endpointHint = .fetched e1 (respond e1).body) ∧
    ((respond e1).status = 404 →
      (respOk (respond e2) = true →
        fetchMeshyTask true respond endpointHint = .fetched e2 (respond e2).body) ∧
      (respOk (respond e2) = false →
        fetchMeshyTask true respond endpointHint
          = .fetchError [meshyTriedErrorEntry e1 (respond e1),
              meshyTriedErrorEntry e2 (respond e2)])) ∧
    (respOk (respond e1) = false → (respond e1).status ≠ 404 →
      fetchMeshyTask true respond endpointHint
        = .fetchError [meshyTriedErrorEntry e1 (respond e1)]) := by
  have hne : e1 ≠ e2 := by
    rcases getMeshyTaskEndpoints_cases endpointHint with hc | hc <;> rw [he] at hc <;>
      obtain ⟨rfl, rfl⟩ : e1 = _ ∧ e2 = _ := by simpa using hc
    · decide
    · decide
  have hrun : fetchMeshyTask true respond endpointHint = fetchMeshyTaskGo respond [e1, e2] [] := by
    unfold fetchMeshyTask
    rw [if_neg (by simp), he]
  refine ⟨hne, ?_, ?_, ?_⟩
  · intro h1
    rw [hrun]
    unfold fetchMeshyTaskGo
    rw [if_pos h1]
  · intro h404
    have hr1 : respOk (respond e1) = false := respOk_404 h404
    constructor
    · intro h2
      rw [hrun]
      unfold fetchMeshyTaskGo
      rw [if_neg (by simp [hr1]), if_neg (by simp [h404])]
      unfold fetchMeshyTaskGo
      rw [if_pos h2]
    · intro h2
      rw [hrun]
      unfold fetchMeshyTaskGo
      rw [if_neg (by simp [hr1]), if_neg (by simp [h404])]
      unfold fetchMeshyTaskGo
      rw [if_neg (by simp [h2])]
      split
      · simp
      · unfold fetchMeshyTaskGo
        simp
  · intro hf hne404
    rw [hrun]
    unfold fetchMeshyTaskGo
    rw [if_neg (by simp [hf]), if_pos hne404]
    simp

/-- Concrete network oracle for C8: the hinted endpoint answers 404, the
alternate answers 200. -/
def fallbackRespond : String → HttpResponse := fun endpoint =>
  if endpoint = "image-to-3d" then { status := 404, body := "not found" }
  else { status := 200, body := "task-payload" }

/-- Concrete network oracle for C8: the hinted endpoint answers 500. -/
def abortRespond : String → HttpResponse := fun endpoint =>
  if endpoint = "image-to-3d" then { status := 500, body := "boom" }
  else { status := 200, body := "task-payload" }

/-- Witness for C8: with no hint the order is `image-to-3d` then
`multi-image-to-3d`; a 404 first response falls back exactly once and
succeeds on the alternate; a 500 first response aborts with a single
recorded attempt. -/
theorem c8_endpoint_fallback_witness :
    getMeshyTaskEndpoints "" = ["image-to-3d", "multi-image-to-3d"] ∧
    fetchMeshyTask true fallbackRespond ""
      = .fetched "multi-image-to-3d" (fallbackRespond "multi-image-to-3d").body ∧
    fetchMeshyTask true abortRespond ""
      = .fetchError [meshyTriedErrorEntry "image-to-3d" (abortRespond "image-to-3d")] :=
  ⟨by decide,
    ((c8_endpoint_fallback fallbackRespond "" "image-to-3d" "multi-image-to-3d"
        (by decide)).2.2.1 (by decide)).1 (by decide),
    (c8_endpoint_fallback abortRespond "" "image-to-3d" "multi-image-to-3d"
        (by decide)).2.2.2 (by decide) (by decide)⟩

end Menuz

